import Mathlib

/-!
Verification of the Toaster-Arena-Remake fork sources: the overlay
static-mesh rendering component (OverlayStaticMeshComponent.h), the mod.io
SDK initialization test command (InitializeAsync.h) and the optional-type
shim (OptionalWrapper.h), shallowly embedded in Lean 4.
-/

/-- Abstract token standing for one concrete `UMaterialInterface` object
(identity modelled by a numeric id). -/
structure Material where
  id : Nat
deriving DecidableEq

/-- A `UMaterialInstanceDynamic`: a per-instance dynamic copy of a parent
material (glossary: "a per-instance runtime copy of a shared rendering
material"). The parent records which material it was instanced from. -/
structure MaterialInstanceDynamic where
  parent : Material
deriving DecidableEq

/-- A `UMaterialInterface*` value seen through the base-class interface:
either a plain material or a dynamic instance (which is-a material
interface in the engine). -/
inductive MaterialRef where
  | base (m : Material)
  | dyn (d : MaterialInstanceDynamic)
deriving DecidableEq

/-- Per-instance state of `UOverlayStaticMeshComponent`
(OverlayStaticMeshComponent.h, lines 13-26): the auto-create flag, the
configured overlay material, the transient dynamic material pointer and the
scalar overlay value, plus the static-mesh reference inherited from the
`UStaticMeshComponent` base (modelled as an abstract id). The C++ `float`
OverlayValue is modelled as a rational; the claims about it involve only
the exact value 0. Null pointers are `none`. -/
structure UOverlayStaticMeshComponent where
  staticMesh : Option Nat
  bAutoCreateDynamicOverlay : Bool
  OverlayMaterial : Option Material
  OverlayMaterialDynamic : Option MaterialInstanceDynamic
  OverlayValue : ℚ
deriving DecidableEq

/-- The default-constructed component: the in-class initializers of
OverlayStaticMeshComponent.h give `bAutoCreateDynamicOverlay = true`,
`OverlayMaterialDynamic = nullptr` and `OverlayValue = 0.f`;
`OverlayMaterial` has no initializer and is zero-initialized (null) by the
engine object allocator, and no static mesh is set yet. -/
def initComponent : UOverlayStaticMeshComponent :=
  { staticMesh := none
    bAutoCreateDynamicOverlay := true
    OverlayMaterial := none
    OverlayMaterialDynamic := none
    OverlayValue := 0 }

/-- Modelled from the spec: `UMaterialInstanceDynamic::Create` (engine API,
not under src) produces a dynamic instance whose parent is the given
material; creating from a null material yields null. -/
def createDynamicInstance : Option Material → Option MaterialInstanceDynamic
  | none => none
  | some m => some ⟨m⟩

/-- Modelled from the spec: the body of
`UOverlayStaticMeshComponent::SetOverlayMaterial` is not under src (only
its declaration, OverlayStaticMeshComponent.h line 34, with the comment
"Set the overlay material, will auto-create dynamic instance if enabled").
It stores the material and, when `bAutoCreateDynamicOverlay` is set,
replaces the dynamic pointer with a fresh dynamic instance of the new
material; with auto-creation disabled the dynamic pointer is untouched. -/
def SetOverlayMaterial (s : UOverlayStaticMeshComponent) (m : Option Material) :
    UOverlayStaticMeshComponent :=
  { s with
    OverlayMaterial := m
    OverlayMaterialDynamic :=
      if s.bAutoCreateDynamicOverlay then createDynamicInstance m
      else s.OverlayMaterialDynamic }

/-- Write of the `BlueprintReadWrite` property `OverlayValue`
(OverlayStaticMeshComponent.h line 26). -/
def SetOverlayValue (s : UOverlayStaticMeshComponent) (v : ℚ) :
    UOverlayStaticMeshComponent :=
  { s with OverlayValue := v }

/-- Modelled from the spec: the body of `GetOverlayMaterial` is not under
src (only its `const` declaration, OverlayStaticMeshComponent.h line 30);
per the spec it is the getter of a "property getter/setter pair", returning
the configured overlay material. The `const` qualifier forces the returned
state to be the input state. -/
def GetOverlayMaterial (s : UOverlayStaticMeshComponent) :
    Option Material × UOverlayStaticMeshComponent :=
  (s.OverlayMaterial, s)

/-- The material interface exposed at the overlay slot: the dynamic
instance when present, otherwise the configured material. -/
def effectiveOverlayRef (s : UOverlayStaticMeshComponent) : Option MaterialRef :=
  match s.OverlayMaterialDynamic with
  | some d => some (MaterialRef.dyn d)
  | none => s.OverlayMaterial.map MaterialRef.base

/-- Modelled from the spec: the body of `GetUsedMaterials` is not under src
(only its `const` declaration, OverlayStaticMeshComponent.h line 36); it
reports the materials in use, here the overlay slot contribution (the debug
flag adds nothing for this component). The `const` qualifier forces the
returned state to be the input state. -/
def GetUsedMaterials (s : UOverlayStaticMeshComponent) (_bGetDebugMaterials : Bool) :
    List MaterialRef × UOverlayStaticMeshComponent :=
  ((match effectiveOverlayRef s with
    | some r => [r]
    | none => []),
   s)

/-- Modelled from the spec: the body of `GetOverlayMaterialIndex` is not
under src (only its `const` declaration, OverlayStaticMeshComponent.h
line 37); the overlay slot index is abstracted as 0. The `const` qualifier
forces the returned state to be the input state. -/
def GetOverlayMaterialIndex (s : UOverlayStaticMeshComponent) :
    Int × UOverlayStaticMeshComponent :=
  (0, s)

/-- Modelled from the spec: the body of the `GetMaterial` override is not
under src (only its `const` declaration, OverlayStaticMeshComponent.h
line 38); at the overlay index it yields the effective overlay material,
elsewhere the (unmodelled) base lookup yields nothing. The `const`
qualifier forces the returned state to be the input state. -/
def GetMaterial (s : UOverlayStaticMeshComponent) (i : Int) :
    Option MaterialRef × UOverlayStaticMeshComponent :=
  ((if i = (GetOverlayMaterialIndex s).1 then effectiveOverlayRef s else none), s)

/-- The states of `UOverlayStaticMeshComponent` reachable through its
public operations: an editor-configured fresh component (the `EditAnywhere`
properties may be set arbitrarily before registration; the `Transient`
dynamic pointer starts null) followed by any sequence of
`SetOverlayMaterial` calls and `OverlayValue` writes. -/
inductive Reachable : UOverlayStaticMeshComponent → Prop where
  | configured (sm : Option Nat) (ac : Bool) (mat : Option Material) (v : ℚ) :
      Reachable { staticMesh := sm
                  bAutoCreateDynamicOverlay := ac
                  OverlayMaterial := mat
                  OverlayMaterialDynamic := none
                  OverlayValue := v }
  | setMaterial (s : UOverlayStaticMeshComponent) (m : Option Material) :
      Reachable s → Reachable (SetOverlayMaterial s m)
  | setValue (s : UOverlayStaticMeshComponent) (v : ℚ) :
      Reachable s → Reachable (SetOverlayValue s v)

/-- The invariant of the spec: "the dynamic instance, if present, mirrors
the configured material". -/
def overlayInvariant (s : UOverlayStaticMeshComponent) : Prop :=
  ∀ d, s.OverlayMaterialDynamic = some d → s.OverlayMaterial = some d.parent

/-- Modelled from the spec: `FModioErrorCode` (declared in the SDK headers,
not under src) is "a single boolean-equivalent error code"; modelled as a
numeric code whose boolean value is truthy exactly when the code is
nonzero. -/
structure FModioErrorCode where
  value : Nat
deriving DecidableEq

/-- The boolean-equivalent reading of an error code: truthy means error,
falsy (zero) means no error. -/
def errorCodeAsBool (ec : FModioErrorCode) : Bool :=
  ec.value != 0

/-- Observable interactions of the test command with the test framework:
an assertion through `TestEqual` (description, actual boolean, expected
boolean) or the `Done` signal ending the latent command. -/
inductive TestEvent where
  | assertEqual (desc : String) (actual : Bool) (expected : Bool)
  | doneEvent
deriving DecidableEq

/-- Whether a test-framework event is an assertion. -/
def TestEvent.isAssert : TestEvent → Bool
  | .assertEqual _ _ _ => true
  | .doneEvent => false

/-- Calls the command can issue on the SDK handle (`Modio->...`). The
options argument records which configuration was passed. -/
inductive SDKCall where
  | initializeAsyncCall (options : Nat)
deriving DecidableEq

/-- Modelled from the spec: `UModioSDKLibrary::GetAutomationTestOptions`
(not under src) supplies one fixed options value for automation tests,
abstracted as an opaque-to-us constant. -/
def automationTestOptions : Nat := 0

/-- State of `FModioInitializeAsyncCommand`: the only mutable state visible
to the claims is the done flag of its base `FModioTestLatentCommandBase`
(modelled from the spec: the base class is not under src; the spec says the
command polls a done flag each engine tick). -/
structure FModioInitializeAsyncCommand where
  done : Bool
deriving DecidableEq

/-- `FModioInitializeAsyncCommand::Start` (InitializeAsync.h, lines 20-24):
it issues the single call `Modio->InitializeAsync(GetAutomationTestOptions(),
delegate-to-Callback)` and returns; the command state is untouched and no
result is waited on. The returned list records the SDK calls issued. -/
def Start (c : FModioInitializeAsyncCommand) :
    FModioInitializeAsyncCommand × List SDKCall :=
  (c, [SDKCall.initializeAsyncCall automationTestOptions])

/-- Modelled from the spec: the inherited
`FModioTestLatentCommandBase::Update` (not under src) polls the done flag
each engine tick and reports whether the latent command has finished. -/
def Update (c : FModioInitializeAsyncCommand) : Bool :=
  c.done

/-- `FModioInitializeAsyncCommand::Callback` (InitializeAsync.h,
lines 26-30): it runs
`CurrentTest->TestEqual("SDK initializes completes without errors", ec, false)`
and then `Done()`. `TestEqual` records one assertion comparing the
boolean-equivalent error code against false; `Done` (modelled from the
spec: base class not under src) sets the done flag. The returned list
records the test-framework events in order. -/
def Callback (c : FModioInitializeAsyncCommand) (ec : FModioErrorCode) :
    FModioInitializeAsyncCommand × List TestEvent :=
  ({ c with done := true },
   [TestEvent.assertEqual "SDK initializes completes without errors"
      (errorCodeAsBool ec) false,
    TestEvent.doneEvent])

/-- The three branches of the preprocessor switch in OptionalWrapper.h:
`MODIO_PLATFORM_UNREAL` defined; else `__GNUC__` or `__clang__` defined;
else the fallback. -/
inductive BuildConfig where
  | modioPlatformUnreal
  | gnuClang
  | fallback
deriving DecidableEq

/-- A preprocessing-relevant directive of OptionalWrapper.h: a file
inclusion, or one of the warning-suppression macros from
ModioCompilerMacros.h. -/
inductive Directive where
  | includeFile (path : String)
  | warningPush
  | warningSuppress (w : String)
  | warningPop
deriving DecidableEq

/-- The directive sequence OptionalWrapper.h (lines 13-43) expands to in
each build configuration, transcribed branch by branch. -/
def optionalWrapperDirectives : BuildConfig → List Directive
  | .modioPlatformUnreal =>
      [Directive.includeFile "MODIO_UNREAL_PLATFORM_PREAMBLE",
       Directive.includeFile "modio/detail/ModioCompilerMacros.h",
       Directive.warningPush,
       Directive.warningSuppress "NOT_IMPLICIT_CONSTRUCTOR",
       Directive.warningSuppress "NOT_IMPLICIT_DESCTRUCTOR",
       Directive.includeFile "tl/optional.hpp",
       Directive.warningPop,
       Directive.includeFile "MODIO_UNREAL_PLATFORM_EPILOGUE"]
  | .gnuClang =>
      [Directive.includeFile "modio/detail/ModioCompilerMacros.h",
       Directive.warningPush,
       Directive.warningSuppress "SIGNED_UNSIGNED_INTEGER_COMPARISON",
       Directive.includeFile "tl/optional.hpp",
       Directive.warningPop]
  | .fallback =>
      [Directive.includeFile "tl/optional.hpp"]

/-- A directive is a wrapper (the claim's "warning-suppression and platform
preamble/epilogue wrappers") when it is a warning-suppression directive,
the inclusion of the warning-macro header ModioCompilerMacros.h, or the
platform preamble/epilogue inclusion. -/
def isWrapperDirective : Directive → Bool
  | .warningPush => true
  | .warningSuppress _ => true
  | .warningPop => true
  | .includeFile p =>
      p == "MODIO_UNREAL_PLATFORM_PREAMBLE" ||
      p == "MODIO_UNREAL_PLATFORM_EPILOGUE" ||
      p == "modio/detail/ModioCompilerMacros.h"

/-- Claim C1: for every error code ec delivered to
`FModioInitializeAsyncCommand::Callback`, the command makes exactly one
assertion against the test framework — that ec equals false (the falsy
no-error code) — and performs no other use of ec: the whole event trace is
the one assertion followed by the Done signal, its shape independent of
ec. -/
theorem callback_single_assertion_on_ec
    (c : FModioInitializeAsyncCommand) (ec : FModioErrorCode) :
    (Callback c ec).2 =
      [TestEvent.assertEqual "SDK initializes completes without errors"
        (errorCodeAsBool ec) false,
       TestEvent.doneEvent] ∧
    ((Callback c ec).2.filter TestEvent.isAssert).length = 1 :=
  ⟨rfl, rfl⟩

/-- Claim C7: for every error code ec, including truthy (error) codes that
make the assertion fail, Callback unconditionally signals Done after the
assertion: the Done event is in the trace, it is the last event (hence
after the assertion), and the resulting command state polls as finished, so
the latent command never remains pending once the SDK callback fires. -/
theorem callback_unconditionally_done
    (c : FModioInitializeAsyncCommand) (ec : FModioErrorCode) :
    TestEvent.doneEvent ∈ (Callback c ec).2 ∧
    (Callback c ec).2.getLast? = some TestEvent.doneEvent ∧
    Update (Callback c ec).1 = true := by
  refine ⟨?_, ?_, rfl⟩ <;> simp [Callback]

/-- Claim C4: for every run of the test command, Start issues exactly one
asynchronous SDK call (InitializeAsync with the automation-test options),
leaves the command state untouched (no blocking, no completion inside
Start), and completion is observed only by the inherited per-tick Update
polling the done flag. -/
theorem start_single_call_update_polls
    (c : FModioInitializeAsyncCommand) :
    Start c = (c, [SDKCall.initializeAsyncCall automationTestOptions]) ∧
    (Start c).2.length = 1 ∧
    Update c = c.done :=
  ⟨rfl, rfl, rfl⟩

/-- Claim C5: in every build configuration the optional-type shim includes
tl/optional.hpp exactly once, and once the warning-suppression and platform
preamble/epilogue wrapper directives are stripped, all three branches
reduce to the same single inclusion of tl/optional.hpp, so the selected
optional type is identical across platforms. -/
theorem optional_wrapper_identical_across_configs (cfg : BuildConfig) :
    (optionalWrapperDirectives cfg).count (Directive.includeFile "tl/optional.hpp") = 1 ∧
    (optionalWrapperDirectives cfg).filter (fun d => !(isWrapperDirective d)) =
      [Directive.includeFile "tl/optional.hpp"] := by
  cases cfg <;> exact ⟨by decide, by decide⟩

/-- Claim C6: the per-instance state of `UOverlayStaticMeshComponent`
consists exactly of the static-mesh reference (from the base class), the
auto-create flag, the configured overlay material, the optional dynamic
material instance and the scalar overlay value: every state is its own
rebuilding from just these five fields, so no other domain data is held. -/
theorem component_state_exactly_fields (s : UOverlayStaticMeshComponent) :
    s = { staticMesh := s.staticMesh
          bAutoCreateDynamicOverlay := s.bAutoCreateDynamicOverlay
          OverlayMaterial := s.OverlayMaterial
          OverlayMaterialDynamic := s.OverlayMaterialDynamic
          OverlayValue := s.OverlayValue } :=
  rfl

/-- Claim C8: on default construction of `UOverlayStaticMeshComponent`,
bAutoCreateDynamicOverlay is true, OverlayMaterialDynamic is null and
OverlayValue is 0. -/
theorem default_component_initial_values :
    initComponent.bAutoCreateDynamicOverlay = true ∧
    initComponent.OverlayMaterialDynamic = none ∧
    initComponent.OverlayValue = 0 :=
  ⟨rfl, rfl, rfl⟩

/-- Claim C3: GetOverlayMaterial and SetOverlayMaterial form a
getter/setter pair: for every material and every component state, after
SetOverlayMaterial the getter returns exactly that material. -/
theorem get_set_overlay_material_roundtrip
    (s : UOverlayStaticMeshComponent) (m : Option Material) :
    (GetOverlayMaterial (SetOverlayMaterial s m)).1 = m :=
  rfl

/-- Claim C9: the read-only queries GetOverlayMaterial, GetUsedMaterials,
GetOverlayMaterialIndex and GetMaterial are const operations: for every
component state (and every argument) each returns the component state
unchanged in every field. -/
theorem const_queries_preserve_state
    (s : UOverlayStaticMeshComponent) (b : Bool) (i : Int) :
    (GetOverlayMaterial s).2 = s ∧
    (GetUsedMaterials s b).2 = s ∧
    (GetOverlayMaterialIndex s).2 = s ∧
    (GetMaterial s i).2 = s :=
  ⟨rfl, rfl, rfl, rfl⟩

/-- Helper for the reachability invariant: while auto-creation is disabled
the transient dynamic pointer can never have been populated, since only the
auto-create branch of SetOverlayMaterial writes a non-null value and the
flag is fixed at configuration time. -/
lemma reachable_no_dynamic_when_disabled
    {s : UOverlayStaticMeshComponent} (h : Reachable s) :
    s.bAutoCreateDynamicOverlay = false → s.OverlayMaterialDynamic = none := by
  induction h with
  | configured sm ac mat v => intro _; rfl
  | setMaterial s m hs ih =>
      intro hf
      have hf' : s.bAutoCreateDynamicOverlay = false := hf
      simp [SetOverlayMaterial, hf', ih hf']
  | setValue s v hs ih =>
      intro hf
      have hf' : s.bAutoCreateDynamicOverlay = false := hf
      exact ih hf'

/-- Claim C2: in every `UOverlayStaticMeshComponent` state reachable
through the public operations (editor configuration of a fresh component,
SetOverlayMaterial, OverlayValue writes), if the dynamic material instance
OverlayMaterialDynamic is present then it is a dynamic instance of the
configured material OverlayMaterial. -/
theorem reachable_dynamic_mirrors_configured
    (s : UOverlayStaticMeshComponent) (h : Reachable s) :
    overlayInvariant s := by
  induction h with
  | configured sm ac mat v =>
      intro d hd
      exact Option.noConfusion hd
  | setMaterial s m hs ih =>
      intro d hd
      by_cases hac : s.bAutoCreateDynamicOverlay = true
      · have hd' : createDynamicInstance m = some d := by
          simpa [SetOverlayMaterial, hac] using hd
        cases m with
        | none => exact Option.noConfusion hd'
        | some x =>
            have hx : d = ⟨x⟩ := by
              simpa [createDynamicInstance] using hd'.symm
            subst hx
            rfl
      · have hac' : s.bAutoCreateDynamicOverlay = false := by
          simpa using hac
        have hnone : s.OverlayMaterialDynamic = none :=
          reachable_no_dynamic_when_disabled hs hac'
        simp [SetOverlayMaterial, hac', hnone] at hd
  | setValue s v hs ih =>
      intro d hd
      exact ih d hd

/-- Witness for claim C2: the invariant holds at a concrete reachable
state, a default component whose overlay material was set to material 7. -/
theorem reachable_dynamic_mirrors_configured_witness :
    overlayInvariant (SetOverlayMaterial initComponent (some ⟨7⟩)) :=
  reachable_dynamic_mirrors_configured _
    (Reachable.setMaterial _ (some ⟨7⟩) (Reachable.configured none true none 0))
